import Mathlib

/-!
Shallow embedding of the seo-crawler-api repository (TypeScript sources under
`src/crawlers/` plus the Express HTTP layer) and proofs about its claims.

JavaScript numbers appearing in ratings and averages are modelled as
`Option ℚ`, where `none` stands for `NaN` (the only non-finite value the
embedded code can produce); arithmetic propagates `NaN` as in JS.
DOM reads (`querySelector`, `textContent`, `getAttribute`) are modelled as
record fields of candidate/card structures: `Option` captures a missing
element or attribute exactly where the source's optional chaining does.
-/

namespace SeoCrawler

/-- A JavaScript number restricted to the values reachable in the embedded
code: a rational, or `NaN` (`none`). -/
abbrev JSNum : Type := Option ℚ

/-- JS `+` on numbers: `NaN` propagates. -/
def jsAdd : JSNum → JSNum → JSNum
  | some a, some b => some (a + b)
  | _, _ => none

/-- `reviews.reduce((sum, r) => sum + r.rating, 0)` from review-crawler.ts. -/
def jsSum (l : List JSNum) : JSNum := l.foldl jsAdd (some 0)

/-- JS `Math.round`: nearest integer, ties toward +∞; `NaN` maps to `NaN`. -/
def jsRound (x : JSNum) : JSNum := x.map (fun q => ((⌊q + 1/2⌋ : ℤ) : ℚ))

/-- JS multiplication by a rational constant; `NaN` propagates. -/
def jsMulC (c : ℚ) (x : JSNum) : JSNum := x.map (fun q => q * c)

/-- JS division of a number by a (nonzero) integer count; `NaN` propagates.
In the embedded code it is only reached under a `totalReviews > 0` guard. -/
def jsDivNat (x : JSNum) (n : Nat) : JSNum :=
  if n = 0 then none else x.map (fun q => q / (n : ℚ))

/-- JS `String.prototype.trim`: drop leading and trailing whitespace
(structurally, over the character list). -/
def jsTrim (s : String) : String :=
  String.mk
    (((s.toList.dropWhile Char.isWhitespace).reverse.dropWhile Char.isWhitespace).reverse)

/-- Digits-to-number accumulator used by the `parseInt`/`parseFloat` models. -/
def digitsVal (ds : List Char) : Nat :=
  ds.foldl (fun a c => a * 10 + (c.toNat - '0'.toNat)) 0

/-- JS `parseInt(s)` (radix 10): strip leading whitespace, optional sign,
read leading decimal digits; `NaN` when no digit is found. -/
def parseIntJS (s : String) : JSNum :=
  let t := (jsTrim s).toList
  let signed : Bool × List Char :=
    match t with
    | '-' :: rest => (true, rest)
    | '+' :: rest => (false, rest)
    | l => (false, l)
  let ds := signed.2.takeWhile Char.isDigit
  if ds.isEmpty then none
  else some ((if signed.1 then -1 else 1) * (digitsVal ds : ℚ))

/-- JS `parseFloat(s)`: strip leading whitespace, optional sign, integer
digits, optional fractional digits; `NaN` when no digit is found at all.
(The exponent form never occurs in the attributes the code parses.) -/
def parseFloatJS (s : String) : JSNum :=
  let t := (jsTrim s).toList
  let signed : Bool × List Char :=
    match t with
    | '-' :: rest => (true, rest)
    | '+' :: rest => (false, rest)
    | l => (false, l)
  let intDs := signed.2.takeWhile Char.isDigit
  let rest := signed.2.dropWhile Char.isDigit
  let fracDs :=
    match rest with
    | '.' :: r => r.takeWhile Char.isDigit
    | _ => []
  if intDs.isEmpty ∧ fracDs.isEmpty then none
  else
    let mag : ℚ := (digitsVal intDs : ℚ) +
      (digitsVal fracDs : ℚ) / ((10 : ℚ) ^ fracDs.length)
    some ((if signed.1 then -1 else 1) * mag)

/-- `needle` is a prefix of `hay` (over character lists). -/
def listIsPref : List Char → List Char → Bool
  | [], _ => true
  | _ :: _, [] => false
  | a :: as, b :: bs => a = b && listIsPref as bs

/-- Substring occurrence over character lists. -/
def listContainsSub (needle : List Char) : List Char → Bool
  | [] => needle.isEmpty
  | c :: rest => listIsPref needle (c :: rest) || listContainsSub needle rest

/-- JS `hay.includes(needle)`. -/
def strIncludes (hay needle : String) : Bool :=
  listContainsSub needle.toList hay.toList

/-- Hexadecimal digit for `Nat.toDigits`-free rendering. -/
def hexDigit (n : Nat) : Char :=
  if n < 10 then Char.ofNat ('0'.toNat + n) else Char.ofNat ('a'.toNat + (n - 10))

/-- Four-hex-digit rendering of a code point, for JSON `\u00XX` escapes. -/
def hex4 (n : Nat) : String :=
  String.mk [hexDigit (n / 4096 % 16), hexDigit (n / 256 % 16),
    hexDigit (n / 16 % 16), hexDigit (n % 16)]

/-- `JSON.stringify` escaping of one character inside a string literal. -/
def jsonEscapeChar (c : Char) : String :=
  if c = '"' then "\\\""
  else if c = '\\' then "\\\\"
  else if c = Char.ofNat 8 then "\\b"
  else if c = Char.ofNat 9 then "\\t"
  else if c = Char.ofNat 10 then "\\n"
  else if c = Char.ofNat 12 then "\\f"
  else if c = Char.ofNat 13 then "\\r"
  else if c.toNat < 32 then "\\u" ++ hex4 c.toNat
  else String.singleton c

/-- `JSON.stringify` of a string value. -/
def jsonString (s : String) : String :=
  "\"" ++ String.join (s.toList.map jsonEscapeChar) ++ "\""

/-- Comma-joined list body for `JSON.stringify` of an array. -/
def jsonJoin (l : List String) : String :=
  match l with
  | [] => ""
  | x :: xs => xs.foldl (fun acc y => acc ++ "," ++ y) x

/-- `JSON.stringify` of an array of strings. -/
def jsonArrayOfStrings (l : List String) : String :=
  "[" ++ jsonJoin (l.map jsonString) ++ "]"

/-- `JSON.stringify` of an array of string arrays — the exact shape hashed
and compared by competitor-crawler.ts. -/
def jsonArrayOfArrays (l : List (List String)) : String :=
  "[" ++ jsonJoin (l.map jsonArrayOfStrings) ++ "]"

/-- Modelled from the spec: stands for the MD5 hex digest supplied by the
external `crypto` library (`crypto.createHash('md5')...digest('hex')`), which
is not part of this repository. The development relies only on it being one
fixed deterministic function of its input string — the property the spec
assigns it ("a deterministic digest") — so it is modelled as an explicit
executable digest rather than the full MD5 round schedule. -/
def md5Hex (s : String) : String :=
  let m : Nat := 340282366920938463463374607431768211507
  let h : Nat := s.toList.foldl (fun a c => (a * 131 + c.toNat + 17) % m) 2166136261
  String.mk (Nat.toDigits 16 h)

/-! ## Competitor crawler (src/crawlers/competitor-crawler.ts) -/

/-- The `PageContent` record produced by `extractPageContent`'s in-page
evaluation (competitor-crawler.ts lines 111–123) and completed server-side
with `contentHash`. The in-page computation itself (word counting, link
classification) runs in the browser, which the spec treats as an external
capability; the record is the value it hands back. -/
structure PageContent where
  url : String
  h1 : List String
  h2 : List String
  h3 : List String
  wordCount : Nat
  contentHash : String
  paragraphs : List String
  images : Nat
  internalLinks : Nat
  externalLinks : Nat
  crawledAt : String
deriving DecidableEq, Repr

/-- Server-side completion of `extractPageContent`: the hash is MD5 over
`JSON.stringify([content.h1, content.h2, content.h3, content.paragraphs])`. -/
def extractPageContent (content : PageContent) : PageContent :=
  { content with
    contentHash :=
      md5Hex (jsonArrayOfArrays [content.h1, content.h2, content.h3, content.paragraphs]) }

/-- `createSnapshotKey`: MD5 hex digest of the URL. -/
def createSnapshotKey (url : String) : String := md5Hex url

/-- The `ContentChange` record of competitor-crawler.ts. -/
structure ContentChange where
  headingsChanged : Bool
  contentChanged : Bool
  wordCountDiff : Int
  structureChanged : Bool
deriving DecidableEq, Repr

/-- `detectChanges` (competitor-crawler.ts lines 139–169). -/
def detectChanges (previous : Option PageContent) (current : PageContent) : ContentChange :=
  match previous with
  | none =>
    { headingsChanged := false
      contentChanged := false
      wordCountDiff := 0
      structureChanged := false }
  | some prev =>
    { headingsChanged :=
        jsonArrayOfArrays [prev.h1, prev.h2, prev.h3] ≠
          jsonArrayOfArrays [current.h1, current.h2, current.h3]
      contentChanged := prev.contentHash ≠ current.contentHash
      wordCountDiff := (current.wordCount : Int) - (prev.wordCount : Int)
      structureChanged :=
        prev.images ≠ current.images ∨
          ((prev.internalLinks : Int) - (current.internalLinks : Int)).natAbs > 5 }

/-- `hasChanges`: `Object.values(changes).some(v => typeof v === 'boolean' ? v : v !== 0)`,
over the fields in declaration order. -/
def hasChangesOf (c : ContentChange) : Bool :=
  c.headingsChanged || c.contentChanged || decide (c.wordCountDiff ≠ 0) || c.structureChanged

/-- Snapshot Store contents: `KeyValueStore` entries, newest binding first
(`setValue` overwrites by shadowing, `getValue` reads the newest). -/
abbrev Store : Type := List (String × PageContent)

/-- `KeyValueStore.getValue`. -/
def storeGet (s : Store) (k : String) : Option PageContent :=
  (s.find? (fun e => e.1 = k)).map (fun e => e.2)

/-- `KeyValueStore.setValue` (overwrite). -/
def storePut (s : Store) (k : String) (v : PageContent) : Store := (k, v) :: s

/-- One `CompetitorResult` entry pushed by the request handler. -/
structure CompetitorResult where
  url : String
  previousSnapshot : Option PageContent
  currentSnapshot : PageContent
  changes : ContentChange
  hasChanges : Bool
deriving DecidableEq, Repr

/-- The competitor `requestHandler` body for one target (competitor-crawler.ts
lines 35–70): extract, read the previous snapshot, diff, conditionally
persist, and build the pushed result. `raw` is the in-page evaluation's
output for the loaded page. -/
def competitorHandleRequest (store : Store) (includeSnapshots : Bool)
    (url : String) (raw : PageContent) : CompetitorResult × Store :=
  let currentSnapshot := extractPageContent raw
  let snapshotKey := createSnapshotKey url
  let previousSnapshot := storeGet store snapshotKey
  let changes := detectChanges previousSnapshot currentSnapshot
  let store' := if includeSnapshots then storePut store snapshotKey currentSnapshot else store
  ({ url := url
     previousSnapshot := previousSnapshot
     currentSnapshot := currentSnapshot
     changes := changes
     hasChanges := hasChangesOf changes }, store')

/-! ## SERP crawler (src/crawlers/serp-crawler.ts) -/

/-- One result record of the SERP crawler (`SERPResult`). -/
structure SERPResult where
  keyword : String
  position : Nat
  url : String
  title : String
  description : String
  crawledAt : String
deriving DecidableEq, Repr

/-- The description container found by `link.closest('div')`, with the three
fallback description elements queried inside it (each field is the element's
`textContent` when the element exists). -/
structure DescContainer where
  descVwiC3b : Option String
  descSncf : Option String
  descClamp : Option String
deriving DecidableEq, Repr

/-- One `a h3` candidate of `extractSerpResults`: `linkMatch` is the
`h3.closest('a')` anchor's `href` (`none` when no anchor encloses the
heading), `titleText` is the heading's `textContent`, and `container` is
`link.closest('div')`. -/
structure SerpCandidate where
  linkHref : Option String
  titleText : Option String
  container : Option DescContainer
deriving DecidableEq, Repr

/-- `!link || !link.href`: the candidate supplies a usable link only when an
anchor exists and its `href` is non-empty (empty string is falsy in JS). -/
def candLink (c : SerpCandidate) : Option String :=
  match c.linkHref with
  | none => none
  | some href => if href = "" then none else some href

/-- `descEl?.textContent?.trim() ?? ''` over the three fallback selectors,
or `''` when no container exists. -/
def candDescription (c : SerpCandidate) : String :=
  match c.container with
  | none => ""
  | some cont =>
    ((cont.descVwiC3b.or (cont.descSncf.or cont.descClamp)).map jsTrim).getD ""

/-- `h3.textContent?.trim() || ''`. -/
def candTitle (c : SerpCandidate) : String :=
  (c.titleText.map jsTrim).getD ""

/-- The extraction loop of `extractSerpResults` (serp-crawler.ts lines
185–215): walk candidates in document order carrying the next `position`,
break once `position > maxResults`, skip candidates without a usable link
(without consuming a position), and build one record per accepted candidate. -/
def serpGo (keyword now : String) (maxResults : Nat) :
    List SerpCandidate → Nat → List SERPResult
  | [], _ => []
  | c :: rest, position =>
    if position > maxResults then []
    else
      match candLink c with
      | none => serpGo keyword now maxResults rest position
      | some href =>
        { keyword := keyword
          position := position
          url := href
          title := candTitle c
          description := candDescription c
          crawledAt := now } :: serpGo keyword now maxResults rest (position + 1)

/-- `extractSerpResults(page, keyword, maxResults)`: the in-page evaluation
over the page's ordered `a h3` candidates, starting at position 1. `now`
stands for the `new Date().toISOString()` timestamps taken during the pass. -/
def extractSerpResults (cands : List SerpCandidate) (keyword : String)
    (maxResults : Nat) (now : String) : List SERPResult :=
  serpGo keyword now maxResults cands 1

/-- Number of candidates the extraction loop accepts (those with a usable
link). -/
def acceptedCount (cands : List SerpCandidate) : Nat :=
  cands.countP (fun c => (candLink c).isSome)

/-- The state of a loaded page as the SERP request handler observes it:
`page.url()` after navigation and the `a h3` candidates of its DOM. -/
structure SerpPageLoad where
  currentUrl : String
  candidates : List SerpCandidate
  now : String
deriving Repr

/-- One attempt of the SERP `requestHandler` on a navigation outcome:
`none` input is a navigation/infrastructure failure of this attempt; a load
whose URL contains `/sorry/` makes the handler throw (serp-crawler.ts lines
86–89); otherwise the handler extracts and returns records. The result is
`none` exactly when this attempt ends in a thrown error. -/
def serpAttempt (load : Option SerpPageLoad) (keyword : String)
    (maxResults : Nat) : Option (List SERPResult) :=
  match load with
  | none => none
  | some l =>
    if strIncludes l.currentUrl "/sorry/" then none
    else some (extractSerpResults l.candidates keyword maxResults l.now)

/-- The crawling framework's per-request retry loop as configured in
serp-crawler.ts (`maxRequestRetries`, `failedRequestHandler`): a request is
attempted, a thrown handler error or failed navigation causes a fresh
re-attempt while attempts remain, and after the last attempt the request is
handed to `failedRequestHandler` — which in this source only logs — and
dropped. Models the framework's documented retry behaviour; `loads i` is the
navigation outcome of attempt `i`. Returns the handler result (when some
attempt succeeded) and the number of attempts consumed. -/
def runSerpTarget (loads : Nat → Option SerpPageLoad) (keyword : String)
    (maxResults : Nat) : Nat → Nat → Option (List SERPResult) × Nat
  | 0, idx => (none, idx)
  | fuel + 1, idx =>
    match serpAttempt (loads idx) keyword maxResults with
    | some rs => (some rs, idx + 1)
    | none => runSerpTarget loads keyword maxResults fuel (idx + 1)

/-- A SERP target: its keyword and the navigation outcome of each attempt. -/
structure SerpTarget where
  keyword : String
  loads : Nat → Option SerpPageLoad

/-- One step of the request queue: process the next target with the retry
loop (`maxRetries + 1` total attempts) and append whatever it produced —
nothing, when the target failed terminally — to the accumulated results. -/
def serpStep (maxResults maxRetries : Nat)
    (acc : List SERPResult × Nat) (t : SerpTarget) : List SERPResult × Nat :=
  let r := runSerpTarget t.loads t.keyword maxResults (maxRetries + 1) 0
  (acc.1 ++ (r.1.getD []), acc.2 + r.2)

/-- `crawler.run(requests)` over the request queue: each target is processed
in turn, a terminally failed target contributes nothing to the in-memory
`results` array, and the run continues with the remaining targets. Returns
the accumulated results and the total number of navigation attempts. -/
def runSerpAll (targets : List SerpTarget) (maxResults maxRetries : Nat) :
    List SERPResult × Nat :=
  targets.foldl (serpStep maxResults maxRetries) ([], 0)

/-- `runSerpCrawler` (serp-crawler.ts lines 9–128): validate that at least
one keyword is present (throwing before any navigation otherwise), then run
the crawler over one request per keyword and return the in-memory results.
`env i` supplies the navigation outcomes for the `i`-th keyword's request.
The second component counts navigation attempts (0 = no navigation). -/
def runSerpCrawlerModel (keywords : List String) (maxResults maxRetries : Nat)
    (env : Nat → Nat → Option SerpPageLoad) :
    Except String (List SERPResult) × Nat :=
  if keywords.isEmpty then
    (Except.error "At least one keyword is required", 0)
  else
    let targets := (List.range keywords.length).zipWith
      (fun i kw => SerpTarget.mk kw (env i)) keywords
    let r := runSerpAll targets maxResults maxRetries
    (Except.ok r.1, r.2)

/-! ## HTTP layer validation for POST /serp (src/index.ts) -/

/-- A JSON value as far as the `/serp` keyword validation inspects it. -/
inductive JSVal where
  | jsStr : String → JSVal
  | jsNum : ℚ → JSVal
  | jsBool : Bool → JSVal
  | jsNull : JSVal
deriving DecidableEq, Repr

/-- `typeof k === 'string'`. -/
def isStringVal : JSVal → Bool
  | JSVal.jsStr _ => true
  | _ => false

/-- The `/serp` handler's request validation (index source lines 47–60):
missing/empty keywords and non-string entries are rejected with a 400
response before `runSerpCrawler` is called. Returns the error message, or
`none` when validation passes. -/
def serpValidate (keywords : Option (List JSVal)) : Option String :=
  match keywords with
  | none => some "Invalid request: \"keywords\" must be a non-empty array of strings"
  | some ks =>
    if ks.isEmpty then
      some "Invalid request: \"keywords\" must be a non-empty array of strings"
    else if ks.all isStringVal then none
    else some "Invalid request: all keywords must be strings"

/-- The string payload of a validated keyword entry. -/
def jsValString : JSVal → Option String
  | JSVal.jsStr s => some s
  | _ => none

/-- The POST /serp pipeline: handler validation, then `runSerpCrawler`.
On a validation failure the 400 response is produced with no crawl; the
attempt counter reports how many navigations were made. -/
def serpEndpointModel (keywords : Option (List JSVal)) (maxResults maxRetries : Nat)
    (env : Nat → Nat → Option SerpPageLoad) :
    Except String (List SERPResult) × Nat :=
  match serpValidate keywords with
  | some e => (Except.error e, 0)
  | none =>
    runSerpCrawlerModel ((keywords.getD []).filterMap jsValString)
      maxResults maxRetries env

/-! ## Review crawler (src/crawlers/review-crawler.ts) -/

/-- One `Review` record. `rating` is a JS number: the adapters put `NaN`
there when a present rating attribute fails numeric parsing. -/
structure Review where
  source : String
  businessName : String
  reviewerName : String
  rating : JSNum
  reviewText : String
  reviewDate : String
  crawledAt : String
deriving DecidableEq, Repr

/-- The `forEach((card, index) => { if (index >= maxReviews) return; ... })`
iteration shared by the three review adapters: every card is visited with
its index, the callback returns immediately for indices at or past the cap,
and otherwise the per-card body (`emit`) either pushes one review or skips
the card. -/
def forEachCapped {α β : Type} (emit : α → Option β) (maxN : Nat) :
    List α → Nat → List β
  | [], _ => []
  | c :: rest, idx =>
    if maxN ≤ idx then forEachCapped emit maxN rest (idx + 1)
    else
      match emit c with
      | none => forEachCapped emit maxN rest (idx + 1)
      | some r => r :: forEachCapped emit maxN rest (idx + 1)

/-- A Trustpilot review card as the adapter's selectors observe it:
`reviewerEl`/`textEl` are the `textContent` of the consumer-name and
review-text elements when those elements exist, `ratingAttr` is the
`data-service-review-rating` attribute of the rating element (collapsing a
missing element and a missing attribute, both of which make the optional
chain yield a falsy value), `dateAttr` is the `time` element's `datetime`. -/
structure TPCard where
  reviewerEl : Option String
  ratingAttr : Option String
  textEl : Option String
  dateAttr : Option String
deriving DecidableEq, Repr

/-- Per-card body of `extractTrustpilotReviews` (lines 97–117): push iff
both the reviewer and the text elements exist; `rating` is
`ratingAttr ? parseInt(ratingAttr) : 0` (a falsy attribute — absent or
empty — gives 0, a present unparseable one gives `NaN`). -/
def tpEmit (businessName now : String) (card : TPCard) : Option Review :=
  match card.reviewerEl, card.textEl with
  | some reviewer, some text =>
    let ratingVal : JSNum :=
      match card.ratingAttr with
      | none => some 0
      | some a => if a = "" then some 0 else parseIntJS a
    some
      { source := "trustpilot"
        businessName := businessName
        reviewerName := if jsTrim reviewer = "" then "Anonymous" else jsTrim reviewer
        rating := ratingVal
        reviewText := jsTrim text
        reviewDate := card.dateAttr.getD ""
        crawledAt := now }
  | _, _ => none

/-- `extractTrustpilotReviews(page, businessName, maxReviews)`. -/
def extractTrustpilotReviews (cards : List TPCard) (businessName : String)
    (maxReviews : Nat) (now : String) : List Review :=
  forEachCapped (tpEmit businessName now) maxReviews cards 0

/-- A G2 review card: `ratingEl` distinguishes a missing rating element
(`none`) from an element whose `content` attribute is absent
(`some none`) or present (`some (some s)`), since the source branches on the
element and then reads the attribute with a `|| '0'` fallback. -/
structure G2Card where
  reviewerEl : Option String
  ratingEl : Option (Option String)
  textEl : Option String
  dateAttr : Option String
deriving DecidableEq, Repr

/-- Per-card body of `extractG2Reviews` (lines 134–153): push iff the
review-body element exists; `rating` is
`ratingEl ? parseFloat(ratingEl.getAttribute('content') || '0') : 0`. -/
def g2Emit (businessName now : String) (card : G2Card) : Option Review :=
  match card.textEl with
  | some text =>
    let ratingVal : JSNum :=
      match card.ratingEl with
      | none => some 0
      | some attr =>
        let s := match attr with
          | none => "0"
          | some a => if a = "" then "0" else a
        parseFloatJS s
    some
      { source := "g2"
        businessName := businessName
        reviewerName :=
          match card.reviewerEl with
          | none => "Anonymous"
          | some r => if jsTrim r = "" then "Anonymous" else jsTrim r
        rating := ratingVal
        reviewText := jsTrim text
        reviewDate := card.dateAttr.getD ""
        crawledAt := now }
  | none => none

/-- `extractG2Reviews(page, businessName, maxReviews)`. -/
def extractG2Reviews (cards : List G2Card) (businessName : String)
    (maxReviews : Nat) (now : String) : List Review :=
  forEachCapped (g2Emit businessName now) maxReviews cards 0

/-- A Google review card: `ratingAria` is the rating element's `aria-label`
(collapsing a missing element and a missing attribute, both of which stop
the optional chain before `match`), `dateText` the date element's text. -/
structure GoogleCard where
  reviewerEl : Option String
  ratingAria : Option String
  textEl : Option String
  dateText : Option String
deriving DecidableEq, Repr

/-- `aria?.match(/(\d)/)`: the first decimal digit of the label, if any. -/
def firstDigit (s : String) : Option Char :=
  s.toList.find? Char.isDigit

/-- Per-card body of `extractGoogleReviews` (lines 177–198): push iff the
review-text element exists; `rating` is the first digit of the rating
element's `aria-label` (0 when no element, no attribute or no digit) — a
single digit always parses, so this adapter never produces `NaN`. -/
def googleEmit (businessName now : String) (card : GoogleCard) : Option Review :=
  match card.textEl with
  | some text =>
    let ratingVal : JSNum :=
      match card.ratingAria.bind firstDigit with
      | none => some 0
      | some d => parseIntJS (String.singleton d)
    some
      { source := "google"
        businessName := businessName
        reviewerName :=
          match card.reviewerEl with
          | none => "Anonymous"
          | some r => if jsTrim r = "" then "Anonymous" else jsTrim r
        rating := ratingVal
        reviewText := jsTrim text
        reviewDate := (card.dateText.map jsTrim).getD ""
        crawledAt := now }
  | none => none

/-- `extractGoogleReviews(page, businessName, maxReviews)`. The preceding
"More reviews" click and auto-scroll act on the live page (they only change
which cards are loaded) and are part of the environment producing `cards`. -/
def extractGoogleReviews (cards : List GoogleCard) (businessName : String)
    (maxReviews : Nat) (now : String) : List Review :=
  forEachCapped (googleEmit businessName now) maxReviews cards 0

/-- One `ReviewResult` aggregate pushed by the review `requestHandler`. -/
structure ReviewResult where
  source : String
  businessName : String
  reviews : List Review
  averageRating : JSNum
  totalReviews : Nat
deriving DecidableEq, Repr

/-- The stats computation of the review `requestHandler` (lines 52–65):
`totalReviews = reviews.length`; `averageRating` is the sum of ratings over
the count when the count is positive (0 otherwise), then
`Math.round(x * 100) / 100`. -/
def aggregateReviews (source businessName : String) (reviews : List Review) :
    ReviewResult :=
  let totalReviews := reviews.length
  let avg : JSNum :=
    if totalReviews > 0 then
      jsDivNat (jsSum (reviews.map Review.rating)) totalReviews
    else some 0
  { source := source
    businessName := businessName
    reviews := reviews
    averageRating := jsMulC (1/100) (jsRound (jsMulC 100 avg))
    totalReviews := totalReviews }

/-- The review sources' DOM as the three selector families observe it. -/
structure ReviewDom where
  tpCards : List TPCard
  g2Cards : List G2Card
  googleCards : List GoogleCard
deriving Repr

/-- The source type enumeration of a review target. -/
inductive SourceType where
  | google
  | trustpilot
  | g2
deriving DecidableEq, Repr

/-- The review `requestHandler` body for one source (lines 31–68): dispatch
on the source type, extract with the matching adapter, aggregate. -/
def reviewHandleRequest (sourceType : SourceType) (businessName : String)
    (dom : ReviewDom) (maxReviewsPerSource : Nat) (now : String) : ReviewResult :=
  let reviews :=
    match sourceType with
    | SourceType.trustpilot =>
      extractTrustpilotReviews dom.tpCards businessName maxReviewsPerSource now
    | SourceType.g2 =>
      extractG2Reviews dom.g2Cards businessName maxReviewsPerSource now
    | SourceType.google =>
      extractGoogleReviews dom.googleCards businessName maxReviewsPerSource now
  let sourceName :=
    match sourceType with
    | SourceType.trustpilot => "trustpilot"
    | SourceType.g2 => "g2"
    | SourceType.google => "google"
  aggregateReviews sourceName businessName reviews

/-! ## Spec-side definitions and concrete scenario inputs -/

/-- Written from the spec's words ("mean of `rating` rounded to 2 decimals"):
rounding a rational to two decimal places, ties away from the lower value.
Compared against the code's `Math.round(x * 100) / 100`. -/
def specRound2 (q : ℚ) : ℚ := ((⌊q * 100 + 1/2⌋ : ℤ) : ℚ) / 100

/-- A candidate with a usable link, for scenario inputs. -/
def linkedCand (href title : String) : SerpCandidate :=
  { linkHref := some href, titleText := some title, container := none }

/-- A candidate whose heading has no enclosing anchor, for scenario inputs. -/
def unlinkedCand (title : String) : SerpCandidate :=
  { linkHref := none, titleText := some title, container := none }

/-- The spec's SERP scenario page: 8 matching result containers, the 2nd and
5th of which lack a required link. -/
def scenarioCands : List SerpCandidate :=
  [linkedCand "https://r1.example/" "R1",
   unlinkedCand "R2",
   linkedCand "https://r3.example/" "R3",
   linkedCand "https://r4.example/" "R4",
   unlinkedCand "R5",
   linkedCand "https://r6.example/" "R6",
   linkedCand "https://r7.example/" "R7",
   linkedCand "https://r8.example/" "R8"]

/-- A navigation that landed on Google's block page. -/
def blockedLoad : SerpPageLoad :=
  { currentUrl := "https://www.google.com/sorry/index?continue=1"
    candidates := []
    now := "2024-03-01T10:00:00.000Z" }

/-- A successful navigation with one extractable result. -/
def goodLoad : SerpPageLoad :=
  { currentUrl := "https://www.google.com/search?q=q2"
    candidates := [linkedCand "https://example.com/" "Example Domain"]
    now := "2024-03-01T10:00:05.000Z" }

/-- A SERP target every attempt of which lands on the block page. -/
def blockedTarget : SerpTarget :=
  { keyword := "q1", loads := fun _ => some blockedLoad }

/-- A SERP target that succeeds on every attempt. -/
def goodTarget : SerpTarget :=
  { keyword := "q2", loads := fun _ => some goodLoad }

/-- A Trustpilot card whose rating attribute is present but not numeric. -/
def tpBadRatingCard : TPCard :=
  { reviewerEl := some "Alice"
    ratingAttr := some "five"
    textEl := some "Great product"
    dateAttr := none }

/-- A Trustpilot card with no rating element at all. -/
def tpNoRatingCard : TPCard :=
  { reviewerEl := some "Bob"
    ratingAttr := none
    textEl := some "Works fine"
    dateAttr := some "2024-01-15" }

/-- Two extracted reviews with numeric ratings, for the average witnesses. -/
def wReviews : List Review :=
  [{ source := "trustpilot", businessName := "Biz", reviewerName := "Alice",
     rating := some 5, reviewText := "Great", reviewDate := "2024-01-10",
     crawledAt := "t0" },
   { source := "trustpilot", businessName := "Biz", reviewerName := "Bob",
     rating := some 4, reviewText := "Good", reviewDate := "2024-01-11",
     crawledAt := "t0" }]

/-- A snapshot used by the hash-field witnesses. -/
def snapA : PageContent :=
  { url := "https://a.example/"
    h1 := ["Home"]
    h2 := ["Pricing", "About"]
    h3 := ["Contact"]
    wordCount := 100
    contentHash := ""
    paragraphs := ["Welcome.", "We sell things."]
    images := 3
    internalLinks := 4
    externalLinks := 1
    crawledAt := "2024-01-01T00:00:00.000Z" }

/-- `snapA` with every field outside the hash input changed. -/
def snapB : PageContent :=
  { snapA with
    url := "https://b.example/?utm=1"
    wordCount := 250
    images := 9
    internalLinks := 40
    externalLinks := 7
    crawledAt := "2024-02-02T00:00:00.000Z" }

/-! ## Helper lemmas -/

theorem serpGo_of_gt (kw now : String) (maxR : Nat) (cands : List SerpCandidate)
    (p : Nat) (hp : maxR < p) : serpGo kw now maxR cands p = [] := by
  cases cands with
  | nil => rfl
  | cons c rest => simp [serpGo, hp]

theorem serpGo_spec (kw now : String) (maxR : Nat) (cands : List SerpCandidate) :
    ∀ p, ((serpGo kw now maxR cands p).map SERPResult.position =
        List.range' p (min (maxR + 1 - p) (acceptedCount cands))) ∧
      (serpGo kw now maxR cands p).length = min (maxR + 1 - p) (acceptedCount cands) := by
  induction cands with
  | nil => intro p; simp [serpGo, acceptedCount]
  | cons c rest ih =>
    intro p
    by_cases hp : maxR < p
    · have hz : maxR + 1 - p = 0 := by omega
      simp [serpGo, hp, hz]
    · have hslots : maxR + 1 - p = (maxR + 1 - (p + 1)) + 1 := by omega
      cases hlink : candLink c with
      | none =>
        have hacc : acceptedCount (c :: rest) = acceptedCount rest := by
          simp [acceptedCount, List.countP_cons, hlink]
        have := ih p
        simp only [serpGo, hp, if_false, hlink, hacc]
        exact this
      | some href =>
        have hacc : acceptedCount (c :: rest) = acceptedCount rest + 1 := by
          simp [acceptedCount, List.countP_cons, hlink]
        have hmin : min (maxR + 1 - p) (acceptedCount rest + 1)
            = min (maxR + 1 - (p + 1)) (acceptedCount rest) + 1 := by
          omega
        have := ih (p + 1)
        simp only [serpGo, hp, if_false, hlink, hacc, hmin, List.map_cons,
          List.length_cons, List.range'_succ]
        exact ⟨by rw [this.1], by rw [this.2]⟩

theorem serpGo_append (kw now : String) (maxR : Nat) (l1 l2 : List SerpCandidate) :
    ∀ p, maxR + 1 - p ≤ acceptedCount l1 →
      serpGo kw now maxR (l1 ++ l2) p = serpGo kw now maxR l1 p := by
  induction l1 with
  | nil =>
    intro p h
    have hz : maxR < p := by simp [acceptedCount] at h; omega
    simp [serpGo_of_gt kw now maxR _ _ hz, serpGo]
  | cons c rest ih =>
    intro p h
    by_cases hp : maxR < p
    · rw [serpGo_of_gt kw now maxR _ _ hp, serpGo_of_gt kw now maxR _ _ hp]
    · cases hlink : candLink c with
      | none =>
        have hacc : acceptedCount (c :: rest) = acceptedCount rest := by
          simp [acceptedCount, List.countP_cons, hlink]
        rw [hacc] at h
        simp only [List.cons_append, serpGo, hp, if_false, hlink]
        exact ih p h
      | some href =>
        have hacc : acceptedCount (c :: rest) = acceptedCount rest + 1 := by
          simp [acceptedCount, List.countP_cons, hlink]
        have h' : maxR + 1 - (p + 1) ≤ acceptedCount rest := by omega
        simp only [List.cons_append, serpGo, hp, if_false, hlink]
        simp only [List.append_eq]
        rw [ih (p + 1) h']

theorem forEachCapped_of_le {α β : Type} (emit : α → Option β) (maxN : Nat) :
    ∀ (cards : List α) (idx : Nat), maxN ≤ idx →
      forEachCapped emit maxN cards idx = [] := by
  intro cards
  induction cards with
  | nil => intro idx _; rfl
  | cons c rest ih =>
    intro idx h
    simp only [forEachCapped, h, if_true]
    exact ih (idx + 1) (by omega)

theorem forEachCapped_length {α β : Type} (emit : α → Option β) (maxN : Nat) :
    ∀ (cards : List α) (idx : Nat),
      (forEachCapped emit maxN cards idx).length ≤ maxN - idx := by
  intro cards
  induction cards with
  | nil => intro idx; simp [forEachCapped]
  | cons c rest ih =>
    intro idx
    by_cases h : maxN ≤ idx
    · rw [forEachCapped_of_le emit maxN _ _ h]; simp
    · simp only [forEachCapped, h, if_false]
      cases emit c with
      | none => exact le_trans (ih (idx + 1)) (by omega)
      | some r =>
        simp only [List.length_cons]
        have := ih (idx + 1)
        omega

theorem forEachCapped_take {α β : Type} (emit : α → Option β) (maxN : Nat) :
    ∀ (cards : List α) (idx : Nat),
      forEachCapped emit maxN cards idx =
        forEachCapped emit maxN (cards.take (maxN - idx)) idx := by
  intro cards
  induction cards with
  | nil => intro idx; simp [forEachCapped]
  | cons c rest ih =>
    intro idx
    by_cases h : maxN ≤ idx
    · have hz : maxN - idx = 0 := by omega
      rw [forEachCapped_of_le emit maxN _ _ h, hz]
      rfl
    · have hs : maxN - idx = (maxN - (idx + 1)) + 1 := by omega
      rw [hs, List.take_succ_cons]
      simp only [forEachCapped, h, if_false]
      cases emit c with
      | none => exact ih (idx + 1)
      | some r => rw [ih (idx + 1)]

/-! ## Theorems -/

/-- C2: for every pair of PageSnapshots with the previous one present,
`diff(previous, current).contentChanged` is true if and only if the two
snapshots' `contentHash` values differ. -/
theorem contentChanged_iff_hash_differs (prev cur : PageContent) :
    (detectChanges (some prev) cur).contentChanged = true ↔
      prev.contentHash ≠ cur.contentHash := by
  simp [detectChanges]

/-- C3: `diff` with an absent previous snapshot is the all-false/zero
`ChangeRecord`, and on a first-ever visit to a URL (no stored snapshot under
its key) the pushed result has `previousSnapshot` absent and `hasChanges`
false. -/
theorem diff_absent_is_baseline :
    (∀ cur : PageContent, detectChanges none cur =
      { headingsChanged := false, contentChanged := false,
        wordCountDiff := 0, structureChanged := false }) ∧
    (∀ (store : Store) (includeSnapshots : Bool) (url : String) (raw : PageContent),
      storeGet store (createSnapshotKey url) = none →
      (competitorHandleRequest store includeSnapshots url raw).1.previousSnapshot = none ∧
      (competitorHandleRequest store includeSnapshots url raw).1.hasChanges = false) := by
  refine ⟨fun cur => rfl, fun store b url raw h => ?_⟩
  constructor
  · simpa [competitorHandleRequest] using h
  · simp [competitorHandleRequest, h, detectChanges, hasChangesOf]

/-- Witness for C3: a first visit against the empty store. -/
theorem diff_absent_is_baseline_witness :
    (competitorHandleRequest ([] : Store) true "https://x.example/" snapA).1.previousSnapshot
        = none ∧
    (competitorHandleRequest ([] : Store) true "https://x.example/" snapA).1.hasChanges
        = false :=
  diff_absent_is_baseline.2 [] true "https://x.example/" snapA rfl

/-- C8: with `includeSnapshots = false` the Snapshot Store is left unchanged
by a competitor visit — the previous snapshot is read and compared but no
key is written — so a subsequent visit to the same URL still reads the old
stored snapshot. -/
theorem store_unchanged_without_snapshots (store : Store) (url : String)
    (raw1 raw2 : PageContent) (b2 : Bool) :
    (competitorHandleRequest store false url raw1).2 = store ∧
    (competitorHandleRequest ((competitorHandleRequest store false url raw1).2)
        b2 url raw2).1.previousSnapshot
      = storeGet store (createSnapshotKey url) := by
  exact ⟨rfl, rfl⟩

/-- C9: `contentHash` is computed only from the ordered h1/h2/h3 heading
lists and the paragraph list: two extracted snapshots agreeing on those four
fields get the identical digest, whatever their word counts, image counts,
link counts, URL or capture time; the computation is deterministic. -/
theorem contentHash_only_hashed_fields (c1 c2 : PageContent)
    (e1 : c1.h1 = c2.h1) (e2 : c1.h2 = c2.h2) (e3 : c1.h3 = c2.h3)
    (ep : c1.paragraphs = c2.paragraphs) :
    (extractPageContent c1).contentHash = (extractPageContent c2).contentHash := by
  simp [extractPageContent, e1, e2, e3, ep]

/-- Witness for C9: two snapshots differing in URL, word count, image and
link counts and capture time, but with equal hashed fields. -/
theorem contentHash_only_hashed_fields_witness :
    (extractPageContent snapA).contentHash = (extractPageContent snapB).contentHash :=
  contentHash_only_hashed_fields snapA snapB rfl rfl rfl rfl

/-- C1: SERP extraction returns records whose `position` values are the
dense sequence `1..k` with `k ≤ maxResults`, strictly increasing in document
order, assigned only among accepted candidates (`k` is the number of
accepted candidates capped at `maxResults`, so skipped candidates consume no
position number); in particular the spec's scenario — 8 matching containers
of which 2 lack a required link, `maxResults = 5` — yields exactly 5 records
with positions 1..5. -/
theorem serp_positions_dense :
    (∀ (cands : List SerpCandidate) (kw now : String) (maxR : Nat),
        (extractSerpResults cands kw maxR now).map SERPResult.position =
          List.range' 1 (extractSerpResults cands kw maxR now).length ∧
        (extractSerpResults cands kw maxR now).length
          = min maxR (acceptedCount cands)) ∧
    ((extractSerpResults scenarioCands "test query" 5 "t0").length = 5 ∧
      (extractSerpResults scenarioCands "test query" 5 "t0").map SERPResult.position
        = [1, 2, 3, 4, 5]) := by
  constructor
  · intro cands kw now maxR
    have h := serpGo_spec kw now maxR cands 1
    have hm : maxR + 1 - 1 = maxR := by omega
    rw [hm] at h
    constructor
    · show (serpGo kw now maxR cands 1).map SERPResult.position
        = List.range' 1 (serpGo kw now maxR cands 1).length
      rw [h.1, h.2]
    · exact h.2
  · exact ⟨by decide, by decide⟩

/-- C5: every extraction adapter caps its output at the caller-supplied
maximum, and the cap is a hard stop: for SERP, once `maxResults` candidates
have been accepted the remaining candidates are never examined (appending
them changes nothing); for the review adapters, cards at index `maxReviews`
and beyond are never examined (the output equals the output on the first
`maxReviews` cards alone). -/
theorem adapters_respect_caps :
    (∀ (cands : List SerpCandidate) (kw now : String) (maxR : Nat),
        (extractSerpResults cands kw maxR now).length ≤ maxR) ∧
    (∀ (l1 l2 : List SerpCandidate) (kw now : String) (maxR : Nat),
        maxR ≤ acceptedCount l1 →
        extractSerpResults (l1 ++ l2) kw maxR now
          = extractSerpResults l1 kw maxR now) ∧
    (∀ (cards : List TPCard) (bn now : String) (maxN : Nat),
        (extractTrustpilotReviews cards bn maxN now).length ≤ maxN ∧
        extractTrustpilotReviews cards bn maxN now
          = extractTrustpilotReviews (cards.take maxN) bn maxN now) ∧
    (∀ (cards : List G2Card) (bn now : String) (maxN : Nat),
        (extractG2Reviews cards bn maxN now).length ≤ maxN ∧
        extractG2Reviews cards bn maxN now
          = extractG2Reviews (cards.take maxN) bn maxN now) ∧
    (∀ (cards : List GoogleCard) (bn now : String) (maxN : Nat),
        (extractGoogleReviews cards bn maxN now).length ≤ maxN ∧
        extractGoogleReviews cards bn maxN now
          = extractGoogleReviews (cards.take maxN) bn maxN now) := by
  refine ⟨?_, ?_, ?_, ?_, ?_⟩
  · intro cands kw now maxR
    have h := (serpGo_spec kw now maxR cands 1).2
    have hm : maxR + 1 - 1 = maxR := by omega
    rw [hm] at h
    calc (extractSerpResults cands kw maxR now).length
        = min maxR (acceptedCount cands) := h
      _ ≤ maxR := Nat.min_le_left _ _
  · intro l1 l2 kw now maxR hge
    have : maxR + 1 - 1 ≤ acceptedCount l1 := by omega
    exact serpGo_append kw now maxR l1 l2 1 this
  · intro cards bn now maxN
    refine ⟨?_, ?_⟩
    · have h := forEachCapped_length (tpEmit bn now) maxN cards 0
      simpa [extractTrustpilotReviews] using h
    · have := forEachCapped_take (tpEmit bn now) maxN cards 0
      simpa [extractTrustpilotReviews] using this
  · intro cards bn now maxN
    refine ⟨?_, ?_⟩
    · have h := forEachCapped_length (g2Emit bn now) maxN cards 0
      simpa [extractG2Reviews] using h
    · have := forEachCapped_take (g2Emit bn now) maxN cards 0
      simpa [extractG2Reviews] using this
  · intro cards bn now maxN
    refine ⟨?_, ?_⟩
    · have h := forEachCapped_length (googleEmit bn now) maxN cards 0
      simpa [extractGoogleReviews] using h
    · have := forEachCapped_take (googleEmit bn now) maxN cards 0
      simpa [extractGoogleReviews] using this

/-- Witness for C5: with `maxResults = 2` already filled by the first two
accepted candidates, appending further candidates leaves the output
untouched. -/
theorem adapters_respect_caps_witness :
    2 ≤ acceptedCount [linkedCand "https://r1.example/" "R1",
        linkedCand "https://r3.example/" "R3"] ∧
    extractSerpResults
        ([linkedCand "https://r1.example/" "R1",
          linkedCand "https://r3.example/" "R3"] ++
          [linkedCand "https://r6.example/" "R6"]) "k" 2 "t"
      = extractSerpResults
          [linkedCand "https://r1.example/" "R1",
           linkedCand "https://r3.example/" "R3"] "k" 2 "t" :=
  ⟨by decide,
   adapters_respect_caps.2.1
     [linkedCand "https://r1.example/" "R1", linkedCand "https://r3.example/" "R3"]
     [linkedCand "https://r6.example/" "R6"] "k" "t" 2 (by decide)⟩

theorem parseFloatJS_zero : parseFloatJS "0" = some 0 := by
  show some ((1 : ℚ) * ((digitsVal ['0'] : ℚ) +
      (digitsVal [] : ℚ) / (10 : ℚ) ^ ([] : List Char).length)) = some 0
  have d0 : digitsVal ['0'] = 0 := rfl
  have d1 : digitsVal ([] : List Char) = 0 := rfl
  rw [d0, d1]
  norm_num

theorem foldl_jsAdd_all_some :
    ∀ (l : List JSNum), (∀ x ∈ l, x.isSome = true) →
      ∀ a : ℚ, l.foldl jsAdd (some a) = some (a + (l.map (fun x => x.getD 0)).sum)
  | [], _, a => by simp
  | x :: xs, h, a => by
    obtain ⟨v, hv⟩ := Option.isSome_iff_exists.mp (h x (by simp))
    subst hv
    have hxs : ∀ y ∈ xs, y.isSome = true := fun y hy => h y (by simp [hy])
    simp only [List.foldl_cons, jsAdd, List.map_cons, List.sum_cons, Option.getD_some]
    rw [foldl_jsAdd_all_some xs hxs (a + v)]
    rw [add_assoc]

theorem jsSum_all_some (l : List JSNum) (h : ∀ x ∈ l, x.isSome = true) :
    jsSum l = some ((l.map (fun x => x.getD 0)).sum) := by
  have := foldl_jsAdd_all_some l h 0
  simpa [jsSum] using this

theorem aggregate_avg_of_pos (src bn : String) (reviews : List Review)
    (h : ∀ r ∈ reviews, (r.rating).isSome = true) (hpos : 0 < reviews.length) :
    (aggregateReviews src bn reviews).averageRating =
      some (specRound2
        ((reviews.map (fun r => (r.rating).getD 0)).sum / (reviews.length : ℚ))) := by
  have hsum : jsSum (reviews.map Review.rating)
      = some ((reviews.map (fun r => (r.rating).getD 0)).sum) := by
    have hmem : ∀ x ∈ reviews.map Review.rating, x.isSome = true := by
      intro x hx
      obtain ⟨r, hr, rfl⟩ := List.mem_map.mp hx
      exact h r hr
    rw [jsSum_all_some _ hmem]
    congr 1
    rw [List.map_map]
    rfl
  have hne : reviews.length ≠ 0 := by omega
  simp only [aggregateReviews, hpos, if_true, hsum, jsDivNat, hne, if_false,
    jsMulC, jsRound, specRound2, Option.map_some']
  congr 1
  rw [mul_one_div]

/-- C6: every `ReviewAggregate` has `totalReviews` equal to the number of
extracted reviews, `averageRating = 0` when that count is 0, and otherwise
`averageRating` equal to the arithmetic mean of the ratings rounded to two
decimal places. -/
theorem review_average_formula (src bn : String) (reviews : List Review)
    (h : ∀ r ∈ reviews, (r.rating).isSome = true) :
    (aggregateReviews src bn reviews).totalReviews = reviews.length ∧
    (reviews.length = 0 → (aggregateReviews src bn reviews).averageRating = some 0) ∧
    (0 < reviews.length →
      (aggregateReviews src bn reviews).averageRating =
        some (specRound2
          ((reviews.map (fun r => (r.rating).getD 0)).sum / (reviews.length : ℚ)))) := by
  refine ⟨rfl, ?_, fun hpos => aggregate_avg_of_pos src bn reviews h hpos⟩
  intro h0
  have hnil : reviews = [] := List.length_eq_zero.mp h0
  subst hnil
  simp [aggregateReviews, jsMulC, jsRound]
  norm_num

/-- Witness for C6: a two-review aggregate with ratings 5 and 4. -/
theorem review_average_formula_witness :
    (∀ r ∈ wReviews, (r.rating).isSome = true) ∧
    (aggregateReviews "trustpilot" "Biz" wReviews).averageRating =
      some (specRound2
        ((wReviews.map (fun r => (r.rating).getD 0)).sum / (wReviews.length : ℚ))) :=
  ⟨by decide,
   (review_average_formula "trustpilot" "Biz" wReviews (by decide)).2.2 (by decide)⟩

/-- Counterexample to C10: a Trustpilot card whose rating attribute is
present but non-numeric (`"five"`) is emitted with rating `NaN`, not 0, and
the `NaN` propagates to `averageRating` instead of lowering the mean. -/
theorem review_unparsable_rating_cex :
    (extractTrustpilotReviews [tpBadRatingCard] "Biz" 50 "t0").map Review.rating
        = [none] ∧
    (extractTrustpilotReviews [tpBadRatingCard] "Biz" 50 "t0").map Review.rating
        ≠ [some 0] ∧
    (aggregateReviews "trustpilot" "Biz"
        (extractTrustpilotReviews [tpBadRatingCard] "Biz" 50 "t0")).averageRating
        = none := by
  refine ⟨by decide, by decide, by decide⟩

theorem char_digit_facts (d : Char) (hd : d.isDigit = true) :
    d.isWhitespace = false ∧ d ≠ '-' ∧ d ≠ '+' := by
  rw [Char.isDigit, Bool.and_eq_true, decide_eq_true_iff, decide_eq_true_iff] at hd
  obtain ⟨h1, h2⟩ := hd
  have hm : d ≠ '-' := by rintro rfl; revert h1; decide
  have hp : d ≠ '+' := by rintro rfl; revert h1; decide
  have hsp : d ≠ ' ' := by rintro rfl; revert h1; decide
  have htab : d ≠ '\t' := by rintro rfl; revert h1; decide
  have hcr : d ≠ '\r' := by rintro rfl; revert h1; decide
  have hnl : d ≠ '\n' := by rintro rfl; revert h1; decide
  refine ⟨?_, hm, hp⟩
  rw [Char.isWhitespace]
  simp [hsp, htab, hcr, hnl]

theorem parseIntJS_digit (d : Char) (hd : d.isDigit = true) :
    (parseIntJS (String.singleton d)).isSome = true := by
  obtain ⟨hw, hminus, hplus⟩ := char_digit_facts d hd
  have ht : (jsTrim (String.singleton d)).toList = [d] := by
    simp [jsTrim, String.singleton, String.toList, hw]
  simp only [parseIntJS, ht]
  have hm : (match [d] with
      | '-' :: rest => (true, rest)
      | '+' :: rest => (false, rest)
      | l => (false, l)) = (false, [d]) := by
    split <;> simp_all
  rw [hm]
  simp [List.takeWhile_cons, hd]

theorem forEachCapped_mem {α β : Type} (emit : α → Option β) (maxN : Nat) :
    ∀ (cards : List α) (idx : Nat) (b : β), b ∈ forEachCapped emit maxN cards idx →
      ∃ c, emit c = some b
  | [], _, b => by simp [forEachCapped]
  | c :: rest, idx, b => by
    by_cases h : maxN ≤ idx
    · simp only [forEachCapped, h, if_true]
      exact forEachCapped_mem emit maxN rest (idx + 1) b
    · simp only [forEachCapped, h, if_false]
      cases hc : emit c with
      | none => exact forEachCapped_mem emit maxN rest (idx + 1) b
      | some r =>
        intro hb
        rcases List.mem_cons.mp hb with rfl | hmem
        · exact ⟨c, hc⟩
        · exact forEachCapped_mem emit maxN rest (idx + 1) b hmem

theorem foldl_jsAdd_none : ∀ l : List JSNum, l.foldl jsAdd none = none
  | [] => rfl
  | x :: xs => by
    have h : jsAdd none x = none := by cases x <;> rfl
    rw [List.foldl_cons, h]
    exact foldl_jsAdd_none xs

theorem foldl_jsAdd_has_none :
    ∀ (l : List JSNum) (a : JSNum), (∃ x ∈ l, x = none) → l.foldl jsAdd a = none
  | [], _, h => by simp at h
  | x :: xs, a, h => by
    rw [List.foldl_cons]
    rcases h with ⟨y, hy, hyn⟩
    rcases List.mem_cons.mp hy with rfl | hmem
    · rw [hyn]
      have h2 : jsAdd a none = none := by cases a <;> rfl
      rw [h2]
      exact foldl_jsAdd_none xs
    · exact foldl_jsAdd_has_none xs (jsAdd a x) ⟨y, hmem, hyn⟩

theorem aggregate_avg_nan (src bn : String) (reviews : List Review)
    (h : ∃ r ∈ reviews, r.rating = none) :
    (aggregateReviews src bn reviews).averageRating = none := by
  obtain ⟨r, hr, hrn⟩ := h
  have hpos : 0 < reviews.length := List.length_pos.mpr (List.ne_nil_of_mem hr)
  have hsum : jsSum (reviews.map Review.rating) = none :=
    foldl_jsAdd_has_none _ (some 0) ⟨r.rating, List.mem_map_of_mem _ hr, hrn⟩
  have hdiv : jsDivNat none reviews.length = none := by
    unfold jsDivNat
    split <;> rfl
  simp only [aggregateReviews]
  rw [if_pos hpos, hsum, hdiv]
  rfl

/-- C10 amended: a candidate whose rating element is absent — or whose
rating attribute is absent or empty — is still emitted with rating 0,
provided its required fields are present (reviewer and text for Trustpilot,
review text for G2 and Google), and that 0 enters the `averageRating` mean
unchanged; but a rating attribute that is present and fails numeric parsing
produces `NaN` rather than 0 — Trustpilot via `parseInt`, G2 via
`parseFloat` — and any `NaN` rating propagates into `averageRating` instead
of lowering it; the Google adapter reads the first digit of the
`aria-label`, so it defaults to 0 and never produces `NaN`. -/
theorem review_missing_rating_amended :
    (∀ (card : TPCard) (bn now : String) (maxN : Nat), 0 < maxN →
        card.reviewerEl.isSome = true → card.textEl.isSome = true →
        (card.ratingAttr = none ∨ card.ratingAttr = some "") →
        (extractTrustpilotReviews [card] bn maxN now).map Review.rating
          = [some 0]) ∧
    (∀ (card : G2Card) (bn now : String) (maxN : Nat), 0 < maxN →
        card.textEl.isSome = true →
        (card.ratingEl = none ∨ card.ratingEl = some none ∨
          card.ratingEl = some (some "")) →
        (extractG2Reviews [card] bn maxN now).map Review.rating = [some 0]) ∧
    (∀ (card : GoogleCard) (bn now : String) (maxN : Nat), 0 < maxN →
        card.textEl.isSome = true → card.ratingAria.bind firstDigit = none →
        (extractGoogleReviews [card] bn maxN now).map Review.rating = [some 0]) ∧
    (∀ (a : String), a ≠ "" → parseIntJS a = none →
        ∀ (reviewer text bn now : String) (maxN : Nat), 0 < maxN →
        (extractTrustpilotReviews
            [{ reviewerEl := some reviewer, ratingAttr := some a,
               textEl := some text, dateAttr := none }] bn maxN now).map Review.rating
          = [none]) ∧
    (∀ (a : String), a ≠ "" → parseFloatJS a = none →
        ∀ (text bn now : String) (maxN : Nat), 0 < maxN →
        (extractG2Reviews
            [{ reviewerEl := none, ratingEl := some (some a),
               textEl := some text, dateAttr := none }] bn maxN now).map Review.rating
          = [none]) ∧
    (∀ (cards : List GoogleCard) (bn now : String) (maxN : Nat),
        ∀ r ∈ extractGoogleReviews cards bn maxN now, (r.rating).isSome = true) ∧
    (∀ (src bn : String) (reviews : List Review),
        (∃ r ∈ reviews, r.rating = none) →
        (aggregateReviews src bn reviews).averageRating = none) ∧
    (∀ (src bn : String) (reviews : List Review),
        (∀ r ∈ reviews, (r.rating).isSome = true) → 0 < reviews.length →
        (aggregateReviews src bn reviews).averageRating =
          some (specRound2
            ((reviews.map (fun r => (r.rating).getD 0)).sum / (reviews.length : ℚ)))) := by
  refine ⟨?_, ?_, ?_, ?_, ?_, ?_,
    fun src bn reviews h => aggregate_avg_nan src bn reviews h,
    fun src bn reviews h hpos => aggregate_avg_of_pos src bn reviews h hpos⟩
  · intro card bn now maxN hmax hrev htext hattr
    obtain ⟨rv, hrv⟩ := Option.isSome_iff_exists.mp hrev
    obtain ⟨tx, htx⟩ := Option.isSome_iff_exists.mp htext
    have hnle : ¬ maxN ≤ 0 := by omega
    rcases hattr with hattr | hattr <;>
      simp [extractTrustpilotReviews, forEachCapped, hnle, tpEmit, hrv, htx, hattr]
  · intro card bn now maxN hmax htext hel
    obtain ⟨tx, htx⟩ := Option.isSome_iff_exists.mp htext
    have hnle : ¬ maxN ≤ 0 := by omega
    rcases hel with hel | hel | hel <;>
      simp [extractG2Reviews, forEachCapped, hnle, g2Emit, htx, hel, parseFloatJS_zero]
  · intro card bn now maxN hmax htext haria
    obtain ⟨tx, htx⟩ := Option.isSome_iff_exists.mp htext
    have hnle : ¬ maxN ≤ 0 := by omega
    simp [extractGoogleReviews, forEachCapped, hnle, googleEmit, htx, haria]
  · intro a ha hparse reviewer text bn now maxN hmax
    have hnle : ¬ maxN ≤ 0 := by omega
    simp [extractTrustpilotReviews, forEachCapped, hnle, tpEmit, ha, hparse]
  · intro a ha hparse text bn now maxN hmax
    have hnle : ¬ maxN ≤ 0 := by omega
    simp [extractG2Reviews, forEachCapped, hnle, g2Emit, ha, hparse]
  · intro cards bn now maxN r hr
    obtain ⟨c, hc⟩ := forEachCapped_mem (googleEmit bn now) maxN cards 0 r hr
    cases htx : c.textEl with
    | none => simp [googleEmit, htx] at hc
    | some tx =>
      simp only [googleEmit, htx] at hc
      obtain rfl := Option.some.inj hc
      cases hda : c.ratingAria.bind firstDigit with
      | none => simp [hda]
      | some dd =>
        have hdd : dd.isDigit = true := by
          obtain ⟨s, hs, hfind⟩ := Option.bind_eq_some.mp hda
          exact List.find?_some (by simpa [firstDigit] using hfind)
        simp [hda, parseIntJS_digit dd hdd]

/-- Witness for C10 amended: a Trustpilot card with no rating element is
emitted with rating 0. -/
theorem review_missing_rating_amended_witness :
    0 < 50 ∧
    (extractTrustpilotReviews [tpNoRatingCard] "Biz" 50 "t0").map Review.rating
      = [some 0] :=
  ⟨by decide,
   review_missing_rating_amended.1 tpNoRatingCard "Biz" "t0" 50 (by decide)
     (by decide) (by decide) (Or.inl rfl)⟩

theorem runSerpTarget_allFail (loads : Nat → Option SerpPageLoad)
    (kw : String) (maxR : Nat)
    (h : ∀ i, serpAttempt (loads i) kw maxR = none) :
    ∀ (fuel idx : Nat), runSerpTarget loads kw maxR fuel idx = (none, idx + fuel)
  | 0, idx => by simp [runSerpTarget]
  | fuel + 1, idx => by
    rw [runSerpTarget, h idx, runSerpTarget_allFail loads kw maxR h fuel (idx + 1)]
    refine congrArg (Prod.mk none) ?_
    omega

theorem foldl_serpStep_fst (maxR mr : Nat) :
    ∀ (ts : List SerpTarget) (acc : List SERPResult × Nat),
      (List.foldl (serpStep maxR mr) acc ts).1 =
        acc.1 ++ (List.foldl (serpStep maxR mr) ([], 0) ts).1
  | [], acc => by simp
  | t :: ts, acc => by
    rw [List.foldl_cons, List.foldl_cons,
      foldl_serpStep_fst maxR mr ts (serpStep maxR mr acc t),
      foldl_serpStep_fst maxR mr ts (serpStep maxR mr ([], 0) t)]
    simp [serpStep, List.append_assoc]

theorem runSerpAll_append (l1 l2 : List SerpTarget) (maxR mr : Nat) :
    (runSerpAll (l1 ++ l2) maxR mr).1 =
      (runSerpAll l1 maxR mr).1 ++ (runSerpAll l2 maxR mr).1 := by
  rw [runSerpAll, List.foldl_append,
    foldl_serpStep_fst maxR mr l2 (List.foldl (serpStep maxR mr) ([], 0) l1)]
  rfl

/-- Counterexample to C4: a target whose navigation lands on the `/sorry/`
block page does NOT abort the run — it is retried like any other failure
(all 4 attempts are consumed), then dropped, and the run continues: with a
blocked first target and a healthy second one, `runSerpCrawler` resolves
successfully with exactly the second target's record. -/
theorem serp_block_no_abort_cex :
    (runSerpAll [blockedTarget, goodTarget] 10 3).1
      = [{ keyword := "q2", position := 1, url := "https://example.com/",
           title := "Example Domain", description := "",
           crawledAt := "2024-03-01T10:00:05.000Z" }] ∧
    runSerpTarget blockedTarget.loads "q1" 10 4 0 = (none, 4) ∧
    (runSerpCrawlerModel ["q1", "q2"] 10 3
        (fun i => if i = 0 then blockedTarget.loads else goodTarget.loads)).1
      = Except.ok
          [{ keyword := "q2", position := 1, url := "https://example.com/",
             title := "Example Domain", description := "",
             crawledAt := "2024-03-01T10:00:05.000Z" }] := by
  refine ⟨rfl, rfl, rfl⟩

/-- C4 amended: landing on the `/sorry/` block path makes the SERP request
handler throw a per-target error, but the framework treats it exactly like
any other target failure — the navigation is re-attempted until the retry
budget is exhausted (`maxRetries + 1` attempts), then the target is dropped
with only a log and the run continues with the remaining targets; nothing
aborts the whole run early, and `runSerpCrawler` resolves successfully
(reporting nothing upward) for every non-empty keyword list. -/
theorem serp_block_like_other_failures :
    (∀ (t : SerpTarget) (maxR mr : Nat),
        (∀ i, ∃ l, t.loads i = some l ∧ strIncludes l.currentUrl "/sorry/" = true) →
        runSerpTarget t.loads t.keyword maxR (mr + 1) 0 = (none, mr + 1)) ∧
    (∀ (pre post : List SerpTarget) (t : SerpTarget) (maxR mr : Nat),
        (∀ i, serpAttempt (t.loads i) t.keyword maxR = none) →
        (runSerpAll (pre ++ t :: post) maxR mr).1
          = (runSerpAll (pre ++ post) maxR mr).1) ∧
    (∀ (keywords : List String) (maxR mr : Nat)
        (env : Nat → Nat → Option SerpPageLoad), keywords ≠ [] →
        ∃ rs n, runSerpCrawlerModel keywords maxR mr env = (Except.ok rs, n)) := by
  refine ⟨?_, ?_, ?_⟩
  · intro t maxR mr h
    have hfail : ∀ i, serpAttempt (t.loads i) t.keyword maxR = none := by
      intro i
      obtain ⟨l, hl, hsorry⟩ := h i
      simp [serpAttempt, hl, hsorry]
    rw [runSerpTarget_allFail t.loads t.keyword maxR hfail (mr + 1) 0]
    simp
  · intro pre post t maxR mr h
    have hsingle : (runSerpAll [t] maxR mr).1 = [] := by
      have := runSerpTarget_allFail t.loads t.keyword maxR h (mr + 1) 0
      simp [runSerpAll, serpStep, this]
    have h1 : pre ++ t :: post = pre ++ [t] ++ post := by simp
    rw [h1, runSerpAll_append, runSerpAll_append, runSerpAll_append, hsingle]
    simp
  · intro keywords maxR mr env hne
    have hempty : keywords.isEmpty = false := by
      cases keywords with
      | nil => exact absurd rfl hne
      | cons k ks => rfl
    refine ⟨(runSerpAll ((List.range keywords.length).zipWith
        (fun i kw => SerpTarget.mk kw (env i)) keywords) maxR mr).1,
      (runSerpAll ((List.range keywords.length).zipWith
        (fun i kw => SerpTarget.mk kw (env i)) keywords) maxR mr).2, ?_⟩
    simp [runSerpCrawlerModel, hempty]

/-- Witness for C4 amended: the always-blocked target consumes all 4
attempts and yields nothing. -/
theorem serp_block_like_other_failures_witness :
    runSerpTarget blockedTarget.loads blockedTarget.keyword 10 (3 + 1) 0
      = (none, 3 + 1) :=
  serp_block_like_other_failures.1 blockedTarget 10 3
    (fun _ => ⟨blockedLoad, rfl, by decide⟩)

/-- C7: the POST /serp pipeline fails with an invalid-input error — before
any navigation is attempted (0 navigation attempts) — when the keywords
argument is missing, is the empty list, or contains a non-string; and for
every non-empty list of strings the validation passes and the crawl stage is
reached with a successful (`ok`) outcome. -/
theorem serp_input_validation :
    (∀ (maxR mr : Nat) (env : Nat → Nat → Option SerpPageLoad),
        serpEndpointModel none maxR mr env =
          (Except.error
            "Invalid request: \"keywords\" must be a non-empty array of strings", 0)) ∧
    (∀ (maxR mr : Nat) (env : Nat → Nat → Option SerpPageLoad),
        serpEndpointModel (some []) maxR mr env =
          (Except.error
            "Invalid request: \"keywords\" must be a non-empty array of strings", 0)) ∧
    (∀ (ks : List JSVal) (maxR mr : Nat) (env : Nat → Nat → Option SerpPageLoad),
        (∃ v ∈ ks, isStringVal v = false) →
        ∃ e, serpEndpointModel (some ks) maxR mr env = (Except.error e, 0)) ∧
    (∀ (ks : List JSVal) (maxR mr : Nat) (env : Nat → Nat → Option SerpPageLoad),
        ks ≠ [] → (∀ v ∈ ks, isStringVal v = true) →
        ∃ rs n, serpEndpointModel (some ks) maxR mr env = (Except.ok rs, n)) := by
  refine ⟨fun _ _ _ => rfl, fun _ _ _ => rfl, ?_, ?_⟩
  · intro ks maxR mr env hbad
    obtain ⟨v, hv, hfalse⟩ := hbad
    have hempty : ks.isEmpty = false := by
      cases ks with
      | nil => simp at hv
      | cons k rest => rfl
    have hall : ks.all isStringVal = false := by
      rw [Bool.eq_false_iff]
      intro hallTrue
      rw [List.all_eq_true] at hallTrue
      rw [hallTrue v hv] at hfalse
      exact Bool.noConfusion hfalse
    refine ⟨"Invalid request: all keywords must be strings", ?_⟩
    simp [serpEndpointModel, serpValidate, hempty, hall]
  · intro ks maxR mr env hne hall
    have hempty : ks.isEmpty = false := by
      cases ks with
      | nil => exact absurd rfl hne
      | cons k rest => rfl
    have hallT : ks.all isStringVal = true := by
      rw [List.all_eq_true]
      exact hall
    have hkw : ((ks.filterMap jsValString).isEmpty) = false := by
      cases ks with
      | nil => exact absurd rfl hne
      | cons k rest =>
        have hk := hall k (by simp)
        cases k with
        | jsStr s => simp [List.filterMap_cons, jsValString]
        | jsNum q => simp [isStringVal] at hk
        | jsBool b => simp [isStringVal] at hk
        | jsNull => simp [isStringVal] at hk
    refine ⟨(runSerpAll ((List.range (ks.filterMap jsValString).length).zipWith
        (fun i kw => SerpTarget.mk kw (env i)) (ks.filterMap jsValString)) maxR mr).1,
      (runSerpAll ((List.range (ks.filterMap jsValString).length).zipWith
        (fun i kw => SerpTarget.mk kw (env i)) (ks.filterMap jsValString)) maxR mr).2, ?_⟩
    simp [serpEndpointModel, serpValidate, hempty, hallT, runSerpCrawlerModel, hkw]

/-- Witness for C7: a one-keyword request passes validation and reaches the
crawl stage successfully. -/
theorem serp_input_validation_witness :
    ∃ rs n, serpEndpointModel (some [JSVal.jsStr "test query"]) 5 3
        (fun _ _ => some goodLoad) = (Except.ok rs, n) :=
  serp_input_validation.2.2.2 [JSVal.jsStr "test query"] 5 3
    (fun _ _ => some goodLoad) (by decide)
    (by intro v hv; simp at hv; rw [hv]; rfl)

end SeoCrawler
